import Mathlib

set_option maxRecDepth 20000

attribute [local semireducible] Rat.mul Rat.inv Rat.add Rat.sub Rat.ofScientific

/-!
Shallow embedding of the trading bot's Signal & Execution Engine
(`backend/app/strategy.py`, `backend/app/indicators.py`,
`backend/app/exchange.py`, `backend/app/state.py`).

Python floats are modelled as exact rationals (`ℚ`); the source's numeric
literals (0.2, 0.3, 0.4, 0.6, 0.7, 1e-6, ...) are carried as the exact
rationals they denote.  Mutation of the per-symbol global state
(`signal_state[sym]`) is modelled by explicit state passing: functions take
the pre-state and return the post-state.  Network-facing code
(`place_order`) is modelled up to the point where it would issue its first
network call: the value describing that call is the result.
-/

/-! ## Data model (`state.py`, `config.py`) -/

/-- Trading side, the `"FLAT"` / `"BUY"` / `"SELL"` strings of the source. -/
inductive Side where
  | FLAT
  | BUY
  | SELL
deriving DecidableEq, Repr

/-- One OHLC candle, the 4-tuple `(open, high, low, close)` stored in
`candles[sym]`; `strategy.py` indexes it as `c[1]`=high, `c[2]`=low,
`c[3]`=close. -/
structure Candle where
  o : ℚ
  h : ℚ
  l : ℚ
  c : ℚ
deriving DecidableEq

/-- Per-symbol hysteresis state, `signal_state[sym]` in `state.py`:
`{"side": "FLAT", "last_flip": 0, "streak": 0}`. -/
structure SigState where
  side : Side
  last_flip : ℤ
  streak : ℕ
deriving DecidableEq

/-- Strategy configuration, the mutable `config` dict of `state.py`
initialised from `DEFAULT_CONFIG` in `config.py`. -/
structure Cfg where
  timeframe : String
  minAtrPct : ℚ
  minAtrUsd : ℚ
  confirmStreak : ℕ
  flipCooldownSec : ℤ
  stopAtrMult : ℚ
  tpRiskMultiple : ℚ

/-- `DEFAULT_CONFIG` from `config.py` (0.02 = 1/50, 1.5 = 3/2). -/
def DEFAULT_CONFIG : Cfg :=
  { timeframe := "1m", minAtrPct := 1/50, minAtrUsd := 8, confirmStreak := 2,
    flipCooldownSec := 120, stopAtrMult := 3/2, tpRiskMultiple := 2 }

/-- `EMA_FAST` from `config.py`. -/
def EMA_FAST : ℕ := 20

/-- `EMA_SLOW` from `config.py`. -/
def EMA_SLOW : ℕ := 50

/-- `ATR_LEN` from `config.py`. -/
def ATR_LEN : ℕ := 14

/-! ## Indicator library (`indicators.py`) -/

/-- One smoothing step of the EMA loop body: `e = v * k + e * (1 - k)`. -/
def emaStep (k : ℚ) (e v : ℚ) : ℚ := v * k + e * (1 - k)

/-- `ema(series, length)` from `indicators.py`: `None` when
`len(series) < length`; otherwise seed with `series[-length]` and fold the
smoothing step with `k = 2 / (length + 1)` over the remaining window. -/
def ema (series : List ℚ) (length : ℕ) : Option ℚ :=
  if series.length < length then none
  else
    match series.drop (series.length - length) with
    | [] => none
    | e :: rest => some (rest.foldl (emaStep (2 / (length + 1))) e)

/-- True range of one bar: `max(h - l, abs(h - cprev), abs(l - cprev))`. -/
def trueRange (hi lo cprev : ℚ) : ℚ :=
  max (hi - lo) (max |hi - cprev| |lo - cprev|)

/-- The list `trs` built by `atr`'s loop `for i in range(-length, 0)`:
negative Python indices `xs[i]` are `xs[len(xs) + i]`. -/
def trueRanges (highs lows closes : List ℚ) (length : ℕ) : List ℚ :=
  (List.range length).map (fun j =>
    trueRange (highs.getD (highs.length - length + j) 0)
      (lows.getD (lows.length - length + j) 0)
      (closes.getD (closes.length - length + j - 1) 0))

/-- `atr(highs, lows, closes, length)` from `indicators.py`: `None` when
`len(closes) < length + 1`, else the mean of the last `length` true
ranges. -/
def atr (highs lows closes : List ℚ) (length : ℕ) : Option ℚ :=
  if closes.length < length + 1 then none
  else
    let trs := trueRanges highs lows closes length
    some (trs.sum / (trs.length : ℚ))

/-! ## Signal engine (`strategy.py`) -/

/-- `closes = [c[3] for c in buf]`. -/
def closesOf (buf : List Candle) : List ℚ := buf.map Candle.c

/-- `highs = [c[1] for c in buf]`. -/
def highsOf (buf : List Candle) : List ℚ := buf.map Candle.h

/-- `lows = [c[2] for c in buf]`. -/
def lowsOf (buf : List Candle) : List ℚ := buf.map Candle.l

/-- `price = closes[-1]` (the buffer is non-empty at every use site). -/
def lastClose (buf : List Candle) : ℚ := (closesOf buf).getLastD 0

/-- `raw_side = "BUY" if ema_fast > ema_slow else ("SELL" if ema_fast <
ema_slow else "FLAT")`. -/
def rawSide (ema_fast ema_slow : ℚ) : Side :=
  if ema_fast > ema_slow then .BUY
  else if ema_fast < ema_slow then .SELL
  else .FLAT

/-- The diagnostics dict returned alongside every decision.  Keys that a
branch does not set are `none`; the interpolated numeric values of the
source's f-strings are dropped from `explanation` (no claim depends on
them). -/
structure Diag where
  explanation : String
  bars : Option ℕ := none
  ema_fast : Option ℚ := none
  ema_slow : Option ℚ := none
  atr_pct : Option ℚ := none
  atr_usd : Option ℚ := none
  price : Option ℚ := none
  streak : Option ℕ := none
  target_side : Option Side := none
  cooldown : Option ℤ := none
deriving DecidableEq

/-- The diagnostics dict carrying the five indicator keys, shared by every
post-warm-up branch of `decide_side`. -/
def fullDiag (expl : String) (ema_fast ema_slow atr_pct atr_usd price : ℚ) : Diag :=
  { explanation := expl, ema_fast := some ema_fast, ema_slow := some ema_slow,
    atr_pct := some atr_pct, atr_usd := some atr_usd, price := some price }

/-- Result of one `decide_side` evaluation: the returned
`(side, confidence, diag)` triple plus the post-state of
`signal_state[sym]`. -/
structure DecideRet where
  side : Side
  conf : ℚ
  diag : Diag
  st : SigState
deriving DecidableEq

/-- The `"Insufficient data for indicators"` early return of
`decide_side` (state untouched). -/
def insufficientRet (st : SigState) : DecideRet :=
  ⟨.FLAT, 1/5, { explanation := "Insufficient data for indicators" }, st⟩

/-- Lines 28-59 of `strategy.py` (volatility gate and hysteresis), reached
once the indicators are defined and `price > 0`: the ATR AND-gate, then
the `raw_side == FLAT`, `raw_side == st["side"]`, streak-increment,
cooldown and commit branches, in source order. -/
def hystPart (ema_fast ema_slow curr_atr price : ℚ) (cfg : Cfg) (st : SigState)
    (now : ℤ) : DecideRet :=
  let atr_pct := curr_atr / price * 100
  let raw_side := rawSide ema_fast ema_slow
  if atr_pct < cfg.minAtrPct ∧ curr_atr < cfg.minAtrUsd then
    ⟨.FLAT, 3/10, fullDiag "ATR below thresholds" ema_fast ema_slow atr_pct curr_atr price, st⟩
  else if raw_side = .FLAT then
    ⟨.FLAT, 3/10, fullDiag "EMAs equal, no edge" ema_fast ema_slow atr_pct curr_atr price,
      { st with streak := 0 }⟩
  else if raw_side = st.side then
    ⟨st.side, 3/5, fullDiag "Holding (EMAs agree)" ema_fast ema_slow atr_pct curr_atr price,
      { st with streak := 0 }⟩
  else
    let streak1 := st.streak + 1
    if streak1 < cfg.confirmStreak then
      ⟨.FLAT, 2/5,
        { fullDiag "Transition needs more bars" ema_fast ema_slow atr_pct curr_atr price with
          streak := some streak1, target_side := some raw_side },
        { st with streak := streak1 }⟩
    else if now - st.last_flip < cfg.flipCooldownSec then
      ⟨.FLAT, 2/5,
        { fullDiag "Cooldown active" ema_fast ema_slow atr_pct curr_atr price with
          cooldown := some (cfg.flipCooldownSec - (now - st.last_flip)) },
        { st with streak := 0 }⟩
    else
      ⟨raw_side, 7/10, fullDiag "Confirmed (EMA cross)" ema_fast ema_slow atr_pct curr_atr price,
        ⟨raw_side, now, 0⟩⟩

/-- `decide_side(sym, cfg)` from `strategy.py`, with the globals made
explicit: `buf = candles[sym]`, `st = signal_state[sym]`,
`now = int(time.time())`. -/
def decide_side (buf : List Candle) (cfg : Cfg) (st : SigState) (now : ℤ) : DecideRet :=
  if buf.length < max (EMA_SLOW + 1) (ATR_LEN + 1) then
    ⟨.FLAT, 1/5, { explanation := "Warming up, not enough closed bars",
                   bars := some buf.length }, st⟩
  else
    match ema (closesOf buf) EMA_FAST, ema (closesOf buf) EMA_SLOW,
        atr (highsOf buf) (lowsOf buf) (closesOf buf) ATR_LEN with
    | some ema_fast, some ema_slow, some curr_atr =>
      if lastClose buf ≤ 0 then insufficientRet st
      else hystPart ema_fast ema_slow curr_atr (lastClose buf) cfg st now
    | _, _, _ => insufficientRet st

/-! ## Order admission layer (`exchange.py`) -/

/-- Cached per-symbol trading rules (`_filters[sym]`). -/
structure Filters where
  stepSize : ℚ
  minQty : ℚ
  maxQty : ℚ
  tickSize : ℚ
  minNotional : ℚ
deriving DecidableEq

/-- The conservative fallback of `get_filters` for uncached symbols. -/
def DEFAULT_FILTERS : Filters :=
  { stepSize := 1/1000000, minQty := 0, maxQty := 1000000000000,
    tickSize := 1/100, minNotional := 0 }

/-- Rounding toward zero on `ℚ`, the behaviour of
`Decimal.to_integral_value(rounding=ROUND_DOWN)`. -/
def truncQ (q : ℚ) : ℤ := if 0 ≤ q then ⌊q⌋ else ⌈q⌉

/-- `_snap_decimal(value, step)` from `exchange.py`: `max(0.0, value)`
when `step <= 0`, else `(value / step)` rounded toward zero times `step`
(the source performs this in exact `Decimal` arithmetic, which `ℚ` models
exactly). -/
def snap_decimal (value step : ℚ) : ℚ :=
  if step ≤ 0 then max 0 value
  else (truncQ (value / step) : ℚ) * step

/-- `snap_qty(symbol, qty)`: snap to the symbol's cached `stepSize`. -/
def snap_qty (f : Filters) (qty : ℚ) : ℚ := snap_decimal qty f.stepSize

/-- `snap_price(symbol, px)`: snap to the symbol's cached `tickSize`. -/
def snap_price (f : Filters) (px : ℚ) : ℚ := snap_decimal px f.tickSize

/-- `quantize(qty, step)` from `exchange.py`:
`math.floor(qty / step) * step if step > 0 else qty`. -/
def quantize (qty step : ℚ) : ℚ :=
  if step > 0 then (⌊qty / step⌋ : ℚ) * step else qty

/-- `_enforce_qty_px(symbol, qty, price)`: snap `max(0, qty)` and the
optional price, then validate `minQty`, `maxQty` and (when a price is
given) `minNotional`; returns `(qty, price, error_message_if_any)`. -/
def enforce_qty_px (f : Filters) (qty : ℚ) (price : Option ℚ) :
    ℚ × Option ℚ × Option String :=
  let sqty := snap_qty f (max 0 qty)
  let spx := price.map (snap_price f)
  if sqty < f.minQty then (sqty, spx, some "qty below minQty, LOT_SIZE")
  else if sqty > f.maxQty then (sqty, spx, some "qty above maxQty, LOT_SIZE")
  else
    match spx with
    | some px =>
      if sqty * px < f.minNotional then (sqty, spx, some "notional below minNotional")
      else (sqty, spx, none)
    | none => (sqty, spx, none)

/-- The exchange request `place_order` would submit: the three
`cli.create_order` call shapes of `exchange.py`. -/
inductive OrderReq where
  | limitMaker (qty px : ℚ)
  | limitGtc (qty px : ℚ)
  | market (qty : ℚ)
deriving DecidableEq

/-- `place_order` from `exchange.py`, modelled up to its first network
call: it snaps and validates first via `_enforce_qty_px`, raising
(`Except.error`) on any filter violation before any order is built;
otherwise it selects LIMIT_MAKER / LIMIT GTC / MARKET, where Python's
truthiness test `if px_adj:` treats a price of 0 like an absent price. -/
def place_order (f : Filters) (prefer_maker : Bool) (qty : ℚ)
    (limit_px : Option ℚ) : Except String OrderReq :=
  match enforce_qty_px f qty limit_px with
  | (_, _, some e) => .error e
  | (qty_adj, px_adj, none) =>
    let px_truthy : Option ℚ :=
      match px_adj with
      | some p => if p = 0 then none else some p
      | none => none
    match px_truthy with
    | some p => if prefer_maker then .ok (.limitMaker qty_adj p) else .ok (.limitGtc qty_adj p)
    | none => .ok (.market qty_adj)

/-- True exactly on `Except.ok`. -/
def isOkE (e : Except String OrderReq) : Bool :=
  match e with
  | .ok _ => true
  | .error _ => false

/-! ## Position sizer (`compute_signal` in `strategy.py`) -/

/-- Python's `x or fallback` on an optional float: the fallback is used
when the value is missing or equal to 0 (0.0 is falsy). -/
def pyOrQ (x : Option ℚ) (fallback : ℚ) : ℚ :=
  match x with
  | some v => if v = 0 then fallback else v
  | none => fallback

/-- The sizer's output (the dict built by `compute_signal`; the
display-only `reasons` list of rounded values is omitted). -/
structure SignalResult where
  side : Side
  confidence : ℚ
  explanation : String
  stopPrice : Option ℚ
  takeProfit : Option ℚ
  targetExposureUsd : ℚ
  suggestedQtyBase : ℚ
deriving DecidableEq

/-- `compute_signal(s, riskLevel, maxExposureUsd, cfg, balances)` from
`strategy.py`, globals made explicit: `buf`/`st` are the symbol's candle
buffer and hysteresis state, `latest_price` is `latest_prices.get(s, 0.0)`,
and `base_qty`/`quote_qty` are `balances.get(base/quote, 0.0)`.  Returns
the result dict and the post-state mutated by the inner `decide_side`. -/
def compute_signal (buf : List Candle) (st : SigState) (latest_price : ℚ)
    (riskLevel maxExposureUsd : ℚ) (cfg : Cfg) (base_qty quote_qty : ℚ)
    (now : ℤ) : SignalResult × SigState :=
  let r := decide_side buf cfg st now
  let price := pyOrQ r.diag.price latest_price
  let curr_atr := pyOrQ r.diag.atr_usd 0
  let delta : ℚ :=
    match r.side with
    | .BUY =>
      let spendable_usd := min quote_qty maxExposureUsd * riskLevel
      let target_base := if price > 0 then spendable_usd / price else 0
      max 0 (target_base - base_qty)
    | .SELL => min base_qty (base_qty - 0)
    | .FLAT => 0
  let suggested := quantize delta (1/1000000)
  let stop_tp : Option ℚ × Option ℚ :=
    if price > 0 ∧ curr_atr > 0 ∧ (r.side = .BUY ∨ r.side = .SELL) then
      let risk := cfg.stopAtrMult * curr_atr
      if r.side = .BUY then
        let stop := max (1/100) (price - risk)
        (some stop, some (price + cfg.tpRiskMultiple * (price - stop)))
      else
        let stop := price + risk
        (some stop, some (price - cfg.tpRiskMultiple * (stop - price)))
    else (none, none)
  (⟨r.side, r.conf, r.diag.explanation, stop_tp.1, stop_tp.2,
    (if r.side = .BUY then min maxExposureUsd quote_qty * riskLevel else 0),
    suggested⟩, r.st)

/-! ## Concrete fixtures used by witnesses and counterexamples -/

/-- A flat candle whose four components all equal `x`. -/
def flatC (x : ℚ) : Candle := ⟨x, x, x, x⟩

/-- 51 candles: fifty bars at 1 then one bar at 2 (rising close, EMA20 above
EMA50). -/
def bufBuy : List Candle := List.replicate 50 (flatC 1) ++ [flatC 2]

/-- 51 candles: fifty bars at 1 then one bar at 1/2 (falling close, EMA20
below EMA50). -/
def bufSell : List Candle := List.replicate 50 (flatC 1) ++ [flatC (1/2)]

/-- 51 identical candles at 1 (EMAs equal, ATR 0). -/
def bufFlat : List Candle := List.replicate 51 (flatC 1)

/-- 51 identical candles at 0 (latest close is 0, not a positive price). -/
def bufZero : List Candle := List.replicate 51 (flatC 0)

/-- 51 candles: fifty bars at 1 then one at 50000 (the C6 example price). -/
def bufBig : List Candle := List.replicate 50 (flatC 1) ++ [flatC 50000]

/-- 51 candles: fifty bars at 99 then one with high 127, low 99, close 100,
giving reference price 100 and ATR exactly 2 (the C7 example). -/
def bufTP : List Candle := List.replicate 50 (flatC 99) ++ [⟨99, 127, 99, 100⟩]

/-- A fresh hysteresis state (`committedSide = FLAT`, `lastFlip = 0`,
`streak = 0`). -/
def st0 : SigState := ⟨.FLAT, 0, 0⟩

/-- A state already committed to BUY. -/
def stBuy : SigState := ⟨.BUY, 0, 0⟩

/-- Default config with zeroed ATR thresholds (so the volatility gate never
blocks) and confirmation threshold 3. -/
def cfgZ : Cfg := { DEFAULT_CONFIG with minAtrPct := 0, minAtrUsd := 0, confirmStreak := 3 }

/-- Default config with confirmation threshold 1. -/
def cfgT1 : Cfg := { DEFAULT_CONFIG with confirmStreak := 1 }

/-! ## Shared reduction lemma -/

/-- When the buffer is long enough, all indicators are defined and the
latest close is positive, `decide_side` reduces to the gate-and-hysteresis
part. -/
theorem decide_side_reached (buf : List Candle) (cfg : Cfg) (st : SigState)
    (now : ℤ) (ef es a : ℚ)
    (h1 : ¬ buf.length < max (EMA_SLOW + 1) (ATR_LEN + 1))
    (h2 : ema (closesOf buf) EMA_FAST = some ef)
    (h3 : ema (closesOf buf) EMA_SLOW = some es)
    (h4 : atr (highsOf buf) (lowsOf buf) (closesOf buf) ATR_LEN = some a)
    (h5 : ¬ lastClose buf ≤ 0) :
    decide_side buf cfg st now = hystPart ef es a (lastClose buf) cfg st now := by
  unfold decide_side
  rw [if_neg h1, h2, h3, h4]
  exact if_neg h5

/-! ## C5: warming-up evaluations return FLAT with confidence 0.2 -/

/-- C5: for every symbol whose candle buffer contains fewer than
`max(slowEmaLength + 1, atrLength + 1)` candles, signal evaluation returns
side FLAT with confidence exactly 0.2. -/
theorem warmup_flat (buf : List Candle) (cfg : Cfg) (st : SigState) (now : ℤ)
    (h : buf.length < max (EMA_SLOW + 1) (ATR_LEN + 1)) :
    (decide_side buf cfg st now).side = .FLAT ∧
    (decide_side buf cfg st now).conf = 1/5 := by
  unfold decide_side
  rw [if_pos h]
  exact ⟨rfl, rfl⟩

/-- C5 witness: the empty buffer is below the warm-up bound and evaluates
to FLAT with confidence 1/5. -/
theorem warmup_flat_witness :
    (decide_side [] DEFAULT_CONFIG st0 0).side = .FLAT ∧
    (decide_side [] DEFAULT_CONFIG st0 0).conf = 1/5 :=
  warmup_flat [] DEFAULT_CONFIG st0 0 (by decide)

/-! ## C3: quantity snapping (floor rounding, negative inputs) -/

/-- C3 counterexample: `snap_qty` does not clamp negative quantities to 0;
with the default filters (step 1e-6) the input -1 snaps to -1 itself. -/
theorem snap_qty_negative_cex :
    snap_qty DEFAULT_FILTERS (-1) = -1 ∧ snap_qty DEFAULT_FILTERS (-1) ≠ 0 := by
  decide

/-- C3 (amended): with a positive cached step, `snap_qty` floor-rounds every
nonnegative quantity to the step using exact arithmetic; a negative quantity
is rounded toward zero (ceiling), not clamped to 0 — the clamp to 0 happens
in `_enforce_qty_px`, not in `snap_qty`. -/
theorem snap_qty_floor_spec (f : Filters) (q : ℚ) (hs : 0 < f.stepSize) :
    (0 ≤ q → snap_qty f q = (⌊q / f.stepSize⌋ : ℚ) * f.stepSize) ∧
    (q < 0 → snap_qty f q = (⌈q / f.stepSize⌉ : ℚ) * f.stepSize) := by
  constructor
  · intro hq
    unfold snap_qty snap_decimal truncQ
    rw [if_neg (not_le.mpr hs), if_pos (div_nonneg hq hs.le)]
  · intro hq
    unfold snap_qty snap_decimal truncQ
    rw [if_neg (not_le.mpr hs), if_neg (not_le.mpr (div_neg_of_neg_of_pos hq hs))]

/-- C3 witness: 3/2000000 (one and a half steps) floor-snaps per the amended
statement at the default 1e-6 step, and -1 ceil-snaps. -/
theorem snap_qty_floor_spec_witness :
    (snap_qty DEFAULT_FILTERS (3/2000000) =
      (⌊(3/2000000) / DEFAULT_FILTERS.stepSize⌋ : ℚ) * DEFAULT_FILTERS.stepSize) ∧
    (snap_qty DEFAULT_FILTERS (-1) =
      (⌈(-1) / DEFAULT_FILTERS.stepSize⌉ : ℚ) * DEFAULT_FILTERS.stepSize) :=
  ⟨(snap_qty_floor_spec DEFAULT_FILTERS (3/2000000) (by decide)).1 (by decide),
   (snap_qty_floor_spec DEFAULT_FILTERS (-1) (by decide)).2 (by decide)⟩

/-! ## C9: quantity snapping is idempotent -/

/-- On `ℚ`, truncation toward zero of an integer is that integer. -/
theorem truncQ_intCast (n : ℤ) : truncQ (n : ℚ) = n := by
  unfold truncQ
  by_cases hn : (0 : ℚ) ≤ (n : ℚ)
  · rw [if_pos hn, Int.floor_intCast]
  · rw [if_neg hn, Int.ceil_intCast]

/-- C9: for every symbol's cached step and every quantity `q ≥ 0`,
snapping is idempotent: snapping an already-snapped quantity returns it
unchanged. -/
theorem snap_qty_idempotent (f : Filters) (q : ℚ) (hq : 0 ≤ q) :
    snap_qty f (snap_qty f q) = snap_qty f q := by
  unfold snap_qty snap_decimal
  by_cases hs : f.stepSize ≤ 0
  · rw [if_pos hs, if_pos hs, ← max_assoc, max_self]
  · rw [if_neg hs, if_neg hs,
      mul_div_cancel_right₀ ((truncQ (q / f.stepSize) : ℚ)) (fun h => hs (le_of_eq h)),
      truncQ_intCast]

/-- C9 witness: idempotence at the default step for 3/2000000. -/
theorem snap_qty_idempotent_witness :
    snap_qty DEFAULT_FILTERS (snap_qty DEFAULT_FILTERS (3/2000000)) =
      snap_qty DEFAULT_FILTERS (3/2000000) :=
  snap_qty_idempotent DEFAULT_FILTERS (3/2000000) (by decide)

/-! ## C1: what resets the confirmation streak -/

/-- C1 counterexample: two consecutive evaluations whose raw sides are the
two different opposing sides (BUY then SELL, committed side FLAT) both
count toward the same streak: the first evaluation tracks BUY with streak
1, the second tracks SELL and the streak grows to 2 instead of resetting
to 0. -/
theorem streak_cross_tracking_cex :
    (decide_side bufBuy cfgZ st0 100).diag.target_side = some .BUY ∧
    (decide_side bufBuy cfgZ st0 100).st.streak = 1 ∧
    (decide_side bufSell cfgZ (decide_side bufBuy cfgZ st0 100).st 200).diag.target_side =
      some .SELL ∧
    (decide_side bufSell cfgZ (decide_side bufBuy cfgZ st0 100).st 200).st.streak = 2 := by
  decide

/-- C1 (amended): on any evaluation that reaches the hysteresis logic, the
confirmation streak is reset to 0 whenever the raw side is FLAT or already
equals the committed side.  The engine does not track which side a streak
is confirming: an evaluation whose raw side opposes the committed side
increments the streak even when the previous increments were for the other
side, so two consecutive evaluations with two different opposing raw sides
can both count toward the same streak. -/
theorem streak_reset_on_flat_or_holding (buf : List Candle) (cfg : Cfg)
    (st : SigState) (now : ℤ) (ef es a : ℚ)
    (h1 : ¬ buf.length < max (EMA_SLOW + 1) (ATR_LEN + 1))
    (h2 : ema (closesOf buf) EMA_FAST = some ef)
    (h3 : ema (closesOf buf) EMA_SLOW = some es)
    (h4 : atr (highsOf buf) (lowsOf buf) (closesOf buf) ATR_LEN = some a)
    (h5 : ¬ lastClose buf ≤ 0)
    (h6 : ¬ (a / lastClose buf * 100 < cfg.minAtrPct ∧ a < cfg.minAtrUsd))
    (h7 : rawSide ef es = .FLAT ∨ rawSide ef es = st.side) :
    (decide_side buf cfg st now).st.streak = 0 := by
  rw [decide_side_reached buf cfg st now ef es a h1 h2 h3 h4 h5]
  simp only [hystPart]
  rw [if_neg h6]
  rcases h7 with h7 | h7
  · rw [if_pos h7]
  · by_cases hf : rawSide ef es = .FLAT
    · rw [if_pos hf]
    · rw [if_neg hf, if_pos h7]

/-- C1 witness: a buffer with equal EMAs (raw side FLAT) resets a streak
of 3 to 0. -/
theorem streak_reset_on_flat_or_holding_witness :
    (decide_side bufFlat cfgZ ⟨.FLAT, 5, 3⟩ 50).st.streak = 0 :=
  streak_reset_on_flat_or_holding bufFlat cfgZ ⟨.FLAT, 5, 3⟩ 50 1 1 0
    (by decide) (by decide) (by decide) (by decide) (by decide) (by decide)
    (Or.inl (by decide))

/-! ## C8: holding evaluations and the committed-side frame -/

/-- C8 counterexample: with the committed side FLAT and the computed raw
side also FLAT (equal EMAs), the evaluation emits confidence 0.3, not the
0.6 the claim states for every evaluation whose raw side equals the
committed side. -/
theorem holding_conf_cex :
    ema (closesOf bufFlat) EMA_FAST = some 1 ∧
    ema (closesOf bufFlat) EMA_SLOW = some 1 ∧
    rawSide 1 1 = (⟨Side.FLAT, 5, 3⟩ : SigState).side ∧
    (decide_side bufFlat cfgZ ⟨.FLAT, 5, 3⟩ 50).conf = 3/10 ∧
    ((3 : ℚ)/10) ≠ 3/5 := by
  decide

/-- C8 (amended): on any evaluation that reaches the hysteresis logic with
the computed raw side equal to the already-committed side, the evaluation
leaves `last_flip` unchanged, resets the streak to 0 and emits the
committed side — with confidence 0.6 when that side is non-FLAT, and 0.3
(via the raw-FLAT branch) when both sides are FLAT. -/
theorem holding_frame (buf : List Candle) (cfg : Cfg) (st : SigState)
    (now : ℤ) (ef es a : ℚ)
    (h1 : ¬ buf.length < max (EMA_SLOW + 1) (ATR_LEN + 1))
    (h2 : ema (closesOf buf) EMA_FAST = some ef)
    (h3 : ema (closesOf buf) EMA_SLOW = some es)
    (h4 : atr (highsOf buf) (lowsOf buf) (closesOf buf) ATR_LEN = some a)
    (h5 : ¬ lastClose buf ≤ 0)
    (h6 : ¬ (a / lastClose buf * 100 < cfg.minAtrPct ∧ a < cfg.minAtrUsd))
    (h7 : rawSide ef es = st.side) :
    (decide_side buf cfg st now).st.last_flip = st.last_flip ∧
    (decide_side buf cfg st now).st.streak = 0 ∧
    (decide_side buf cfg st now).side = st.side ∧
    (decide_side buf cfg st now).conf = (if st.side = .FLAT then 3/10 else 3/5) := by
  rw [decide_side_reached buf cfg st now ef es a h1 h2 h3 h4 h5]
  simp only [hystPart]
  rw [if_neg h6]
  by_cases hf : rawSide ef es = .FLAT
  · have hsf : st.side = .FLAT := h7 ▸ hf
    rw [if_pos hf, if_pos hsf]
    exact ⟨rfl, rfl, hsf.symm, rfl⟩
  · have hsf : st.side ≠ .FLAT := fun hh => hf (h7.trans hh)
    rw [if_neg hf, if_pos h7, if_neg hsf]
    exact ⟨rfl, rfl, rfl, rfl⟩

/-- C8 witness: holding BUY (raw side BUY, committed BUY) keeps
`last_flip`, resets the streak, emits BUY with confidence 3/5. -/
theorem holding_frame_witness :
    (decide_side bufBuy DEFAULT_CONFIG stBuy 99).st.last_flip = stBuy.last_flip ∧
    (decide_side bufBuy DEFAULT_CONFIG stBuy 99).st.streak = 0 ∧
    (decide_side bufBuy DEFAULT_CONFIG stBuy 99).side = stBuy.side ∧
    (decide_side bufBuy DEFAULT_CONFIG stBuy 99).conf =
      (if stBuy.side = .FLAT then 3/10 else 3/5) :=
  holding_frame bufBuy DEFAULT_CONFIG stBuy 99 (23/21) (53/51) (1/14)
    (by decide) (by decide) (by decide) (by decide) (by decide) (by decide)
    (by decide)

/-! ## C10: early returns leave the hysteresis state untouched -/

/-- C10: every early return of `decide_side` — the warming-up branch, the
insufficient-indicator branch (an undefined EMA/ATR or a non-positive
latest close), and the ATR volatility-gate branch — leaves the per-symbol
hysteresis state completely unchanged; by contrast, the raw-FLAT branch of
the hysteresis logic resets the streak to 0. -/
theorem early_return_frame :
    (∀ (buf : List Candle) (cfg : Cfg) (st : SigState) (now : ℤ),
      buf.length < max (EMA_SLOW + 1) (ATR_LEN + 1) →
      (decide_side buf cfg st now).st = st) ∧
    (∀ (buf : List Candle) (cfg : Cfg) (st : SigState) (now : ℤ),
      (ema (closesOf buf) EMA_FAST = none ∨ ema (closesOf buf) EMA_SLOW = none ∨
        atr (highsOf buf) (lowsOf buf) (closesOf buf) ATR_LEN = none ∨
        lastClose buf ≤ 0) →
      (decide_side buf cfg st now).st = st) ∧
    (∀ (buf : List Candle) (cfg : Cfg) (st : SigState) (now : ℤ) (ef es a : ℚ),
      ¬ buf.length < max (EMA_SLOW + 1) (ATR_LEN + 1) →
      ema (closesOf buf) EMA_FAST = some ef →
      ema (closesOf buf) EMA_SLOW = some es →
      atr (highsOf buf) (lowsOf buf) (closesOf buf) ATR_LEN = some a →
      ¬ lastClose buf ≤ 0 →
      (a / lastClose buf * 100 < cfg.minAtrPct ∧ a < cfg.minAtrUsd) →
      (decide_side buf cfg st now).st = st ∧
      (decide_side buf cfg st now).side = .FLAT ∧
      (decide_side buf cfg st now).conf = 3/10) ∧
    (∀ (buf : List Candle) (cfg : Cfg) (st : SigState) (now : ℤ) (ef es a : ℚ),
      ¬ buf.length < max (EMA_SLOW + 1) (ATR_LEN + 1) →
      ema (closesOf buf) EMA_FAST = some ef →
      ema (closesOf buf) EMA_SLOW = some es →
      atr (highsOf buf) (lowsOf buf) (closesOf buf) ATR_LEN = some a →
      ¬ lastClose buf ≤ 0 →
      ¬ (a / lastClose buf * 100 < cfg.minAtrPct ∧ a < cfg.minAtrUsd) →
      rawSide ef es = .FLAT →
      (decide_side buf cfg st now).st = { st with streak := 0 }) := by
  refine ⟨?_, ?_, ?_, ?_⟩
  · intro buf cfg st now h
    unfold decide_side
    rw [if_pos h]
  · intro buf cfg st now h
    unfold decide_side
    split
    · rfl
    · split
      · rename_i ef es a heq1 heq2 heq3
        split
        · rfl
        · rename_i hpx
          rcases h with h | h | h | h
          · rw [h] at heq1; exact Option.noConfusion heq1
          · rw [h] at heq2; exact Option.noConfusion heq2
          · rw [h] at heq3; exact Option.noConfusion heq3
          · exact absurd h hpx
      · rfl
  · intro buf cfg st now ef es a h1 h2 h3 h4 h5 hg
    rw [decide_side_reached buf cfg st now ef es a h1 h2 h3 h4 h5]
    simp only [hystPart]
    rw [if_pos hg]
    exact ⟨rfl, rfl, rfl⟩
  · intro buf cfg st now ef es a h1 h2 h3 h4 h5 h6 hraw
    rw [decide_side_reached buf cfg st now ef es a h1 h2 h3 h4 h5]
    simp only [hystPart]
    rw [if_neg h6, if_pos hraw]

/-- C10 witness: the empty buffer (warm-up), a buffer whose latest close is
0 (insufficient), a zero-ATR buffer under the default thresholds (gate,
streak of 3 preserved), and the same buffer with zeroed thresholds
(raw-FLAT branch, streak of 3 reset). -/
theorem early_return_frame_witness :
    (decide_side [] DEFAULT_CONFIG ⟨.BUY, 7, 5⟩ 0).st = ⟨.BUY, 7, 5⟩ ∧
    (decide_side bufZero DEFAULT_CONFIG ⟨.BUY, 5, 3⟩ 50).st = ⟨.BUY, 5, 3⟩ ∧
    ((decide_side bufFlat DEFAULT_CONFIG ⟨.FLAT, 5, 3⟩ 50).st = ⟨.FLAT, 5, 3⟩ ∧
      (decide_side bufFlat DEFAULT_CONFIG ⟨.FLAT, 5, 3⟩ 50).side = .FLAT ∧
      (decide_side bufFlat DEFAULT_CONFIG ⟨.FLAT, 5, 3⟩ 50).conf = 3/10) ∧
    (decide_side bufFlat cfgZ ⟨.FLAT, 5, 3⟩ 50).st =
      { (⟨.FLAT, 5, 3⟩ : SigState) with streak := 0 } :=
  ⟨early_return_frame.1 [] DEFAULT_CONFIG ⟨.BUY, 7, 5⟩ 0 (by decide),
   early_return_frame.2.1 bufZero DEFAULT_CONFIG ⟨.BUY, 5, 3⟩ 50
     (Or.inr (Or.inr (Or.inr (by decide)))),
   early_return_frame.2.2.1 bufFlat DEFAULT_CONFIG ⟨.FLAT, 5, 3⟩ 50 1 1 0
     (by decide) (by decide) (by decide) (by decide) (by decide) (by decide),
   early_return_frame.2.2.2 bufFlat cfgZ ⟨.FLAT, 5, 3⟩ 50 1 1 0
     (by decide) (by decide) (by decide) (by decide) (by decide) (by decide)
     (by decide)⟩

/-! ## C4: cooldown enforcement -/

/-- Helper: the hysteresis part either leaves `last_flip` unchanged, or
(the commit branch) sets it to `now` with the cooldown elapsed. -/
theorem hystPart_st_spec (ef es a px : ℚ) (cfg : Cfg) (st : SigState) (now : ℤ) :
    (hystPart ef es a px cfg st now).st.last_flip = st.last_flip ∨
    ((hystPart ef es a px cfg st now).st.last_flip = now ∧
      cfg.flipCooldownSec ≤ now - st.last_flip) := by
  simp only [hystPart]
  split
  · exact Or.inl rfl
  · split
    · exact Or.inl rfl
    · split
      · exact Or.inl rfl
      · split
        · exact Or.inl rfl
        · split
          · exact Or.inl rfl
          · rename_i hcool
            exact Or.inr ⟨rfl, not_lt.mp hcool⟩

/-- Helper: the post-state of `decide_side` is either the unchanged input
state or the post-state of the hysteresis part. -/
theorem decide_side_st_cases (buf : List Candle) (cfg : Cfg) (st : SigState)
    (now : ℤ) :
    (decide_side buf cfg st now).st = st ∨
    ∃ ef es a, (decide_side buf cfg st now).st =
      (hystPart ef es a (lastClose buf) cfg st now).st := by
  unfold decide_side
  split
  · exact Or.inl rfl
  · split
    · rename_i ef es a heq1 heq2 heq3
      split
      · exact Or.inl rfl
      · exact Or.inr ⟨ef, es, a, rfl⟩
    · exact Or.inl rfl

/-- C4: an evaluation changes `lastFlipEpochSeconds` only by committing,
which stamps it with the current time and requires the cooldown to have
elapsed since the previous flip — hence no two commits for a symbol carry
`lastFlip` stamps closer than `flipCooldownSec`.  And when the streak
reaches the threshold while the cooldown has not elapsed, the evaluation
emits FLAT with confidence 0.4, resets the streak to 0, and leaves the
committed side and `last_flip` unchanged. -/
theorem cooldown_enforcement :
    (∀ (buf : List Candle) (cfg : Cfg) (st : SigState) (now : ℤ),
      (decide_side buf cfg st now).st.last_flip ≠ st.last_flip →
      (decide_side buf cfg st now).st.last_flip = now ∧
      cfg.flipCooldownSec ≤ now - st.last_flip) ∧
    (∀ (buf : List Candle) (cfg : Cfg) (st : SigState) (now : ℤ) (ef es a : ℚ),
      ¬ buf.length < max (EMA_SLOW + 1) (ATR_LEN + 1) →
      ema (closesOf buf) EMA_FAST = some ef →
      ema (closesOf buf) EMA_SLOW = some es →
      atr (highsOf buf) (lowsOf buf) (closesOf buf) ATR_LEN = some a →
      ¬ lastClose buf ≤ 0 →
      ¬ (a / lastClose buf * 100 < cfg.minAtrPct ∧ a < cfg.minAtrUsd) →
      rawSide ef es ≠ .FLAT →
      rawSide ef es ≠ st.side →
      ¬ st.streak + 1 < cfg.confirmStreak →
      now - st.last_flip < cfg.flipCooldownSec →
      (decide_side buf cfg st now).side = .FLAT ∧
      (decide_side buf cfg st now).conf = 2/5 ∧
      (decide_side buf cfg st now).st = ⟨st.side, st.last_flip, 0⟩) := by
  constructor
  · intro buf cfg st now h
    rcases decide_side_st_cases buf cfg st now with hc | ⟨ef, es, a, hc⟩
    · exact absurd (congrArg SigState.last_flip hc) h
    · rw [hc] at h ⊢
      rcases hystPart_st_spec ef es a (lastClose buf) cfg st now with hs | hs
      · exact absurd hs h
      · exact hs
  · intro buf cfg st now ef es a h1 h2 h3 h4 h5 h6 hrf hrc hth hcool
    rw [decide_side_reached buf cfg st now ef es a h1 h2 h3 h4 h5]
    simp only [hystPart]
    rw [if_neg h6, if_neg hrf, if_neg hrc, if_neg hth, if_pos hcool]
    exact ⟨rfl, rfl, rfl⟩

/-- C4 witness: with threshold 1 and cooldown elapsed, a BUY commit stamps
`last_flip` with `now`; with threshold 1 and only 50 of 120 cooldown
seconds elapsed, the flip is suppressed as FLAT 2/5 with the streak reset
and side and `last_flip` kept. -/
theorem cooldown_enforcement_witness :
    ((decide_side bufBuy cfgT1 st0 1000).st.last_flip = 1000 ∧
      cfgT1.flipCooldownSec ≤ 1000 - st0.last_flip) ∧
    ((decide_side bufBuy cfgT1 st0 50).side = .FLAT ∧
      (decide_side bufBuy cfgT1 st0 50).conf = 2/5 ∧
      (decide_side bufBuy cfgT1 st0 50).st = ⟨st0.side, st0.last_flip, 0⟩) :=
  ⟨cooldown_enforcement.1 bufBuy cfgT1 st0 1000 (by decide),
   cooldown_enforcement.2 bufBuy cfgT1 st0 50 (23/21) (53/51) (1/14)
     (by decide) (by decide) (by decide) (by decide) (by decide) (by decide)
     (by decide) (by decide) (by decide) (by decide)⟩

/-! ## C2: order admission -/

/-- Helper: the first component of `_enforce_qty_px` is always the snapped,
clamped quantity. -/
theorem enforce_fst (f : Filters) (qty : ℚ) (price : Option ℚ) :
    (enforce_qty_px f qty price).1 = snap_qty f (max 0 qty) := by
  simp only [enforce_qty_px]
  rcases price with _ | p
  · split_ifs <;> rfl
  · simp only [Option.map_some']
    split_ifs <;> rfl

/-- Helper: the second component of `_enforce_qty_px` is always the snapped
optional price. -/
theorem enforce_snd (f : Filters) (qty : ℚ) (price : Option ℚ) :
    (enforce_qty_px f qty price).2.1 = price.map (snap_price f) := by
  simp only [enforce_qty_px]
  rcases price with _ | p
  · split_ifs <;> rfl
  · simp only [Option.map_some']
    split_ifs <;> rfl

/-- Helper: without a price, admission succeeds iff the snapped quantity is
within the min/max bounds. -/
theorem enforce_err_none (f : Filters) (qty : ℚ) :
    (enforce_qty_px f qty none).2.2 = none ↔
      f.minQty ≤ snap_qty f (max 0 qty) ∧ snap_qty f (max 0 qty) ≤ f.maxQty := by
  simp only [enforce_qty_px, Option.map_none']
  split_ifs with hmin hmax
  · constructor
    · intro h; simp at h
    · rintro ⟨hA, _⟩; exact absurd hA (not_le.mpr hmin)
  · constructor
    · intro h; simp at h
    · rintro ⟨_, hB⟩; exact absurd hB (not_le.mpr hmax)
  · exact iff_of_true rfl ⟨not_lt.mp hmin, not_lt.mp hmax⟩

/-- Helper: with a price, admission succeeds iff the snapped quantity is
within bounds and the snapped notional reaches `minNotional` (equality
included). -/
theorem enforce_err_some (f : Filters) (qty p : ℚ) :
    (enforce_qty_px f qty (some p)).2.2 = none ↔
      f.minQty ≤ snap_qty f (max 0 qty) ∧ snap_qty f (max 0 qty) ≤ f.maxQty ∧
      f.minNotional ≤ snap_qty f (max 0 qty) * snap_price f p := by
  simp only [enforce_qty_px, Option.map_some']
  split_ifs with hmin hmax hnot
  · constructor
    · intro h; simp at h
    · rintro ⟨hA, _, _⟩; exact absurd hA (not_le.mpr hmin)
  · constructor
    · intro h; simp at h
    · rintro ⟨_, hB, _⟩; exact absurd hB (not_le.mpr hmax)
  · constructor
    · intro h; simp at h
    · rintro ⟨_, _, hC⟩; exact absurd hC (not_le.mpr hnot)
  · exact iff_of_true rfl ⟨not_lt.mp hmin, not_lt.mp hmax, not_lt.mp hnot⟩

/-- Helper: `place_order` produces an order request exactly when the filter
check passes; on a violation it raises before any order is built. -/
theorem place_order_ok_iff (f : Filters) (pm : Bool) (qty : ℚ)
    (price : Option ℚ) :
    isOkE (place_order f pm qty price) = true ↔
      (enforce_qty_px f qty price).2.2 = none := by
  unfold place_order
  rcases he : enforce_qty_px f qty price with ⟨sq2, sp2, err⟩
  rcases err with _ | e
  · rcases sp2 with _ | p2
    · exact iff_of_true rfl rfl
    · by_cases hz : p2 = 0
      · simp only [if_pos hz]
        exact iff_of_true rfl trivial
      · simp only [if_neg hz]
        cases pm
        · exact iff_of_true rfl trivial
        · exact iff_of_true rfl trivial
  · exact iff_of_false (fun h => Bool.noConfusion h) (fun h => Option.noConfusion h)

/-- C2: the admission check snaps the (clamped) quantity and the optional
price to the cached steps and succeeds exactly when the snapped quantity is
within `[minQty, maxQty]` and, when a price is given, the snapped notional
is at least `minNotional` (the boundary notional = minNotional is
accepted); the adjusted pair is returned, and `place_order` fails before
building any order request exactly on an admission failure. -/
theorem enforce_admission_spec (f : Filters) (qty : ℚ) (price : Option ℚ)
    (pm : Bool) :
    (enforce_qty_px f qty price).1 = snap_qty f (max 0 qty) ∧
    (enforce_qty_px f qty price).2.1 = price.map (snap_price f) ∧
    (price = none → ((enforce_qty_px f qty price).2.2 = none ↔
      f.minQty ≤ snap_qty f (max 0 qty) ∧ snap_qty f (max 0 qty) ≤ f.maxQty)) ∧
    (∀ p, price = some p → ((enforce_qty_px f qty price).2.2 = none ↔
      f.minQty ≤ snap_qty f (max 0 qty) ∧ snap_qty f (max 0 qty) ≤ f.maxQty ∧
      f.minNotional ≤ snap_qty f (max 0 qty) * snap_price f p)) ∧
    (isOkE (place_order f pm qty price) = true ↔
      (enforce_qty_px f qty price).2.2 = none) := by
  refine ⟨enforce_fst f qty price, enforce_snd f qty price, ?_, ?_,
    place_order_ok_iff f pm qty price⟩
  · rintro rfl
    exact enforce_err_none f qty
  · rintro p rfl
    exact enforce_err_some f qty p

/-- Example filters for the C2 witness: step 0.001, minQty 0.001,
minNotional 10. -/
def FILT_EX : Filters :=
  { stepSize := 1/1000, minQty := 1/1000, maxQty := 1000000000,
    tickSize := 1/100, minNotional := 10 }

/-- C2 witness: qty 0.1 at price 100 has snapped notional exactly 10 =
minNotional and is admitted, with the adjusted quantity returned and an
order request produced. -/
theorem enforce_admission_spec_witness :
    (enforce_qty_px FILT_EX (1/10) (some 100)).2.2 = none ∧
    (enforce_qty_px FILT_EX (1/10) (some 100)).1 = snap_qty FILT_EX (max 0 (1/10)) ∧
    isOkE (place_order FILT_EX true (1/10) (some 100)) = true :=
  ⟨((enforce_admission_spec FILT_EX (1/10) (some 100) true).2.2.2.1 100 rfl).mpr
      ⟨by decide, by decide, by decide⟩,
   (enforce_admission_spec FILT_EX (1/10) (some 100) true).1,
   (enforce_admission_spec FILT_EX (1/10) (some 100) true).2.2.2.2.mpr
     (((enforce_admission_spec FILT_EX (1/10) (some 100) true).2.2.2.1 100 rfl).mpr
       ⟨by decide, by decide, by decide⟩)⟩

/-! ## C6: LONG sizing -/

/-- C6: for every BUY decision with positive reference price, the sizer
proposes `max 0 (min(quoteBalance, maxExposureUsd) * riskLevel / price -
baseBalance)`, floor-quantized to the 1e-6 step. -/
theorem sizer_long_target (buf : List Candle) (st : SigState)
    (latest_price riskLevel maxExposureUsd : ℚ) (cfg : Cfg)
    (base_qty quote_qty : ℚ) (now : ℤ)
    (hside : (decide_side buf cfg st now).side = .BUY)
    (hpx : 0 < pyOrQ (decide_side buf cfg st now).diag.price latest_price) :
    (compute_signal buf st latest_price riskLevel maxExposureUsd cfg
        base_qty quote_qty now).1.suggestedQtyBase =
      quantize (max 0 (min quote_qty maxExposureUsd * riskLevel /
        pyOrQ (decide_side buf cfg st now).diag.price latest_price - base_qty))
        (1/1000000) := by
  simp only [compute_signal, hside]
  rw [if_pos hpx]

/-- C6 witness: quoteBalance 1000, riskLevel 0.35, maxExposure 2000, price
50000, baseBalance 0 yields a proposed delta of exactly 0.007. -/
theorem sizer_long_target_witness :
    (decide_side bufBig DEFAULT_CONFIG stBuy 99).side = .BUY ∧
    (compute_signal bufBig stBuy 0 (35/100) 2000 DEFAULT_CONFIG 0 1000
      99).1.suggestedQtyBase = 7/1000 := by
  refine ⟨by decide, ?_⟩
  rw [sizer_long_target bufBig stBuy 0 (35/100) 2000 DEFAULT_CONFIG 0 1000 99
    (by decide) (by decide)]
  decide

/-! ## C7: stop and take-profit levels -/

/-- C7: for every non-FLAT decision with positive reference price and
positive ATR, the risk distance is `stopAtrMult * atr`; a BUY gets stop
`max(0.01, price - risk)` and take-profit
`price + tpRiskMultiple * (price - stop)`; a SELL gets stop `price + risk`
and take-profit `price - tpRiskMultiple * (stop - price)`. -/
theorem stop_take_profit_levels (buf : List Candle) (st : SigState)
    (latest_price riskLevel maxExposureUsd : ℚ) (cfg : Cfg)
    (base_qty quote_qty : ℚ) (now : ℤ)
    (hpx : 0 < pyOrQ (decide_side buf cfg st now).diag.price latest_price)
    (hatr : 0 < pyOrQ (decide_side buf cfg st now).diag.atr_usd 0) :
    ((decide_side buf cfg st now).side = .BUY →
      (compute_signal buf st latest_price riskLevel maxExposureUsd cfg
          base_qty quote_qty now).1.stopPrice =
        some (max (1/100) (pyOrQ (decide_side buf cfg st now).diag.price latest_price -
          cfg.stopAtrMult * pyOrQ (decide_side buf cfg st now).diag.atr_usd 0)) ∧
      (compute_signal buf st latest_price riskLevel maxExposureUsd cfg
          base_qty quote_qty now).1.takeProfit =
        some (pyOrQ (decide_side buf cfg st now).diag.price latest_price +
          cfg.tpRiskMultiple * (pyOrQ (decide_side buf cfg st now).diag.price latest_price -
            max (1/100) (pyOrQ (decide_side buf cfg st now).diag.price latest_price -
              cfg.stopAtrMult * pyOrQ (decide_side buf cfg st now).diag.atr_usd 0)))) ∧
    ((decide_side buf cfg st now).side = .SELL →
      (compute_signal buf st latest_price riskLevel maxExposureUsd cfg
          base_qty quote_qty now).1.stopPrice =
        some (pyOrQ (decide_side buf cfg st now).diag.price latest_price +
          cfg.stopAtrMult * pyOrQ (decide_side buf cfg st now).diag.atr_usd 0) ∧
      (compute_signal buf st latest_price riskLevel maxExposureUsd cfg
          base_qty quote_qty now).1.takeProfit =
        some (pyOrQ (decide_side buf cfg st now).diag.price latest_price -
          cfg.tpRiskMultiple *
            (pyOrQ (decide_side buf cfg st now).diag.price latest_price +
              cfg.stopAtrMult * pyOrQ (decide_side buf cfg st now).diag.atr_usd 0 -
              pyOrQ (decide_side buf cfg st now).diag.price latest_price))) := by
  constructor
  · intro hside
    simp [compute_signal, hside, hpx, hatr]
  · intro hside
    simp [compute_signal, hside, hpx, hatr]

/-- C7 witness: stopAtrMult 1.5, tpRiskMultiple 2, BUY at price 100 with
ATR 2 gives stop 97 and take-profit 106. -/
theorem stop_take_profit_levels_witness :
    (compute_signal bufTP stBuy 0 (35/100) 2000 DEFAULT_CONFIG 0 1000
      99).1.stopPrice = some 97 ∧
    (compute_signal bufTP stBuy 0 (35/100) 2000 DEFAULT_CONFIG 0 1000
      99).1.takeProfit = some 106 := by
  have h := (stop_take_profit_levels bufTP stBuy 0 (35/100) 2000 DEFAULT_CONFIG
    0 1000 99 (by decide) (by decide)).1 (by decide)
  rw [h.1, h.2]
  exact ⟨by decide, by decide⟩
